import Mathlib

/-!
Verification of the query-routing / multi-collection retrieval-merge core
of the admin-rag repository, as a shallow embedding of:

* `src/agents/routing_agent.py`   — `RoutingDecision`, `RoutingAgent.route`
* `src/agents/multi_retriever.py` — `retrieve_with_routing`
* `src/agents/answer_generator.py` — `AnswerWithCitations`,
  `AnswerGenerator.generate`, `AnswerGenerator._build_context`

External collaborators (the vector-store retrieval call and the two LLM
calls) are modelled as explicit function parameters returning `Except`,
so that a failure of a collaborator is an `Except.error` value and each
Python `try/except` block becomes a `match` on that value.

Glossary correspondence with the specification: the *general collection*
of the spec is the `"code_travail"` collection of the code, the
*convention collection* is `"kali"`, `convention_id` is the `idcc`
field, and the spec strategy names `convention_only`,
`both_general_first`, `both_convention_first` name the code literals
`kali_only`, `both_code_first`, `both_kali_first`.

Scores (Python floats that the embedded code only compares / uses as
sort keys) are modelled as `Int`; confidence values (compared against
the bounds 0 and 1, defaulted to 0.7) are modelled as `Rat`.
-/

namespace AdminRag

/-- Python truthiness of an `Optional[str]` value: `None` and the empty
string are falsy, everything else is truthy.  This is the test performed
by `if decision.idcc:` in `multi_retriever.py`. -/
def truthyStr : Option String → Bool
  | none => false
  | some s => s ≠ ""

/-! Routing (`src/agents/routing_agent.py`) -/

/-- Model of `RoutingDecision` (routing_agent.py, lines 27-38).  The
`strategy` field is a `Literal` of four strings in the pydantic model,
but the `collections` property is written defensively for any string
(its final `else` arm), so `strategy` is embedded as `String`. -/
structure RoutingDecision where
  strategy : String
  idcc : Option String
  reasoning : String
deriving Repr, DecidableEq

/-- The derived `collections` property (routing_agent.py, lines 40-53). -/
def RoutingDecision.collections (d : RoutingDecision) : List String :=
  if d.strategy = "code_only" then ["code_travail"]
  else if d.strategy = "kali_only" then ["kali"]
  else if d.strategy = "both_code_first" then ["code_travail", "kali"]
  else if d.strategy = "both_kali_first" then ["kali", "code_travail"]
  else ["code_travail"]

/-- The fixed fallback decision built in the `except` branch of
`RoutingAgent.route` (routing_agent.py, lines 99-105).  The extra
`collections=` keyword passed there is ignored by the pydantic model
(`collections` is a derived property, not a field). -/
def routeFallback : RoutingDecision :=
  { strategy := "code_only", idcc := none, reasoning := "Fallback: LLM error" }

/-- Model of `RoutingAgent.route` (routing_agent.py, lines 80-105).  The
external LLM classification call `_llm_route` is a collaborator; its
outcome is passed in as an `Except` value: `.ok d` when the call
returned a decision that validated against the schema, `.error e` when
it raised (timeout, malformed response, schema violation).  The
`try/except Exception` wrapper becomes the `match`. -/
def route (llmResult : Except String RoutingDecision) : RoutingDecision :=
  match llmResult with
  | .ok d => d
  | .error _ => routeFallback

/-! Multi-collection retrieval (`src/agents/multi_retriever.py`) -/

/-- One retrieved passage.  `content`, `score` and the used metadata
keys (`article_num`, `convention_name`, `idcc`) come from the Retrieval
Port; `collectionTag` models the `_collection` key and `conventionTag`
the `_convention` key that `retrieve_with_routing` adds to the result
dict (both are absent, i.e. `none`, on a passage as returned by the
Port). -/
structure RResult where
  content : String
  articleNum : Option String
  conventionName : Option String
  metaIdcc : Option String
  score : Int
  collectionTag : Option String
  conventionTag : Option String
deriving Repr, DecidableEq

/-- The qdrant metadata-equality filter built by `retrieve_with_routing`
(`Filter(must=[FieldCondition(key="meta.idcc", match=MatchValue(...))])`)
collapses to its single key/value pair. -/
structure QFilter where
  key : String
  value : String
deriving Repr, DecidableEq

/-- Filter construction for one collection (multi_retriever.py, lines
34-44): a filter is built exactly when the collection is `"kali"` and
`decision.idcc` is truthy (non-`None` *and* non-empty, Python
truthiness), and its value is `decision.idcc` itself. -/
def mkKaliFilter (collection : String) (idcc : Option String) : Option QFilter :=
  if collection = "kali" ∧ truthyStr idcc then
    some { key := "meta.idcc", value := idcc.getD "" }
  else
    none

/-- Tagging of one returned passage (multi_retriever.py, lines 56-60):
the `_collection` key is set to the collection name, and additionally
the `_convention` key is set to `decision.idcc` when the collection is
`"kali"` and `decision.idcc` is truthy. -/
def tagResult (collection : String) (idcc : Option String) (r : RResult) : RResult :=
  let r1 := { r with collectionTag := some collection }
  if collection = "kali" ∧ truthyStr idcc then
    { r1 with conventionTag := idcc }
  else
    r1

/-- Stable insertion of a passage into a list sorted by `score`
descending: `x` is placed before the first element whose score is not
`≥ x.score`; among equal scores an earlier-inserted element stays
first. -/
def insertDesc (x : RResult) : List RResult → List RResult
  | [] => [x]
  | y :: ys => if y.score ≤ x.score then x :: y :: ys else y :: insertDesc x ys

/-- Stable sort by `score` descending.  Models
`all_results.sort(key=lambda x: x[...score...], reverse=True)`
(multi_retriever.py, line 69): the Python `list.sort` method is a stable
sort by the key, a stable sort is uniquely determined by the key
preorder, and stable insertion sort is therefore an exact functional
model of it. -/
def sortByScoreDesc : List RResult → List RResult
  | [] => []
  | x :: xs => insertDesc x (sortByScoreDesc xs)

/-- Model of `retrieve_with_routing` (multi_retriever.py, lines 14-76).
The Retrieval Port call `retrieve(query=..., collection_name=...,
top_k=..., filters=...)` is a collaborator; it is passed in as `port`, a
function of the collection name and the optional filter (the query
string and the per-collection `top_k` are fixed for the whole call and
captured in `port`).  A raised exception from `retrieve` is `.error`;
the `try/except/continue` makes the loop skip the results of that
collection. -/
def retrieveWithRouting (decision : RoutingDecision) (topK : Nat)
    (port : String → Option QFilter → Except String (List RResult)) : List RResult :=
  let all := decision.collections.foldl (fun acc collection =>
    match port collection (mkKaliFilter collection decision.idcc) with
    | .ok results => acc ++ results.map (tagResult collection decision.idcc)
    | .error _ => acc) []
  (sortByScoreDesc all).take topK

/-! Answer generation (`src/agents/answer_generator.py`) -/

/-- Model of `AnswerWithCitations` after pydantic validation
(answer_generator.py, lines 12-25): `confidence` is a float in `[0,1]`
(modelled as `Rat`), `citation_indices` a list of (possibly negative)
integers. -/
structure AnswerWithCitations where
  answer : String
  confidence : Rat
  citationIndices : List Int
  reasoning : String
deriving Repr, DecidableEq

/-- The raw structured output of the generation service before pydantic
validation: `confidence` and `citation_indices` are optional fields with
schema defaults, `answer` and `reasoning` are required (a response
missing them fails inside the service call and surfaces as `.error`). -/
structure RawAnswer where
  answer : String
  confidence : Option Rat
  citationIndices : Option (List Int)
  reasoning : String
deriving Repr, DecidableEq

/-- Pydantic validation of a raw service response into
`AnswerWithCitations`: a missing `confidence` is filled with the field
default `0.7`, a missing `citation_indices` with `[]`, and a present
confidence outside `[0,1]` violates the `ge=0.0, le=1.0` bounds and
raises a `ValidationError` (modelled as `.error`). -/
def parseAnswer (raw : RawAnswer) : Except String AnswerWithCitations :=
  let c := raw.confidence.getD (7 / 10 : Rat)
  if 0 ≤ c ∧ c ≤ 1 then
    .ok { answer := raw.answer, confidence := c,
          citationIndices := raw.citationIndices.getD [], reasoning := raw.reasoning }
  else
    .error "confidence out of range"

/-- The fixed answer returned on an empty result list
(answer_generator.py, lines 62-69). -/
def noResultsAnswer : AnswerWithCitations :=
  { answer := "Aucune information disponible pour répondre à cette question."
    confidence := 0
    citationIndices := []
    reasoning := "Pas de résultats de recherche fournis" }

/-- The fallback answer built in the `except` branch of `generate`
(answer_generator.py, lines 110-118); `str(e)[:100]` is `e.take 100`. -/
def fallbackAnswer (e : String) : AnswerWithCitations :=
  { answer := "Je n\x27ai pas pu générer une réponse à cette question."
    confidence := 0
    citationIndices := []
    reasoning := "Erreur lors de la génération: " ++ e.take 100 }

/-- The source label of one passage (answer_generator.py, lines
134-145): `meta.get(key, default)` is `field.getD default`; the
`_collection` lookup is a direct key access, total in the pipeline
because the Merger tags every passage it returns — modelled as
`collectionTag.getD ""` (the default branch is unreachable on Merger
output). -/
def sourceLabel (r : RResult) : String :=
  let article := r.articleNum.getD "unknown"
  if r.collectionTag.getD "" = "kali" then
    article ++ " (Convention " ++ r.conventionName.getD "" ++ " - IDCC " ++ r.metaIdcc.getD "" ++ ")"
  else
    article ++ " (Code du travail)"

/-- Model of `AnswerGenerator._build_context` (answer_generator.py,
lines 120-149): takes the first three passages, then appends one
labelled block per passage with a 1-based source number. -/
def buildContext (results : List RResult) : String :=
  let top3 := results.take 3
  top3.enum.foldl (fun ctx p =>
    ctx ++ "[Source " ++ toString (p.1 + 1) ++ "] " ++ sourceLabel p.2
        ++ ":\n" ++ p.2.content ++ "\n\n") ""

/-- The user prompt sent to the generation service
(answer_generator.py, line 79). -/
def userPrompt (query context : String) : String :=
  "Question: " ++ query ++ "\n\nContexte:\n" ++ context

/-- Post-processing of the service response inside the `try` block
(answer_generator.py, lines 92-118): on a validated answer, keep only
the citation indices `idx` with `0 <= idx < len(results)` (the code
assigns the filtered list only when it differs, which is the same
function); on any exception, return the fallback answer. -/
def postProcess (total : Nat) (resp : Except String AnswerWithCitations) : AnswerWithCitations :=
  match resp with
  | .ok answer =>
      { answer with citationIndices :=
          answer.citationIndices.filter (fun idx => 0 ≤ idx ∧ idx < (total : Int)) }
  | .error e => fallbackAnswer e

/-- Model of `AnswerGenerator.generate` (answer_generator.py, lines
51-118).  The external generation call
(`client.beta.chat.completions.parse`) is the collaborator `svc`, a
function of the user prompt (the fixed system prompt is captured in it);
it returns the raw structured output, or `.error` when the call raises.
Pydantic validation of that output happens inside the same `try` block,
hence the `bind parseAnswer`. -/
def generate (query : String) (results : List RResult)
    (svc : String → Except String RawAnswer) : AnswerWithCitations :=
  if results.isEmpty then
    noResultsAnswer
  else
    postProcess results.length
      ((svc (userPrompt query (buildContext (results.take 3)))).bind parseAnswer)

/-! Helper definitions and lemmas shared by the claim theorems -/

/-- A passage list is sorted by score descending (adjacent pairs only,
which for a transitive relation is full sortedness); equal scores are
allowed. -/
def scoresSortedDesc (l : List RResult) : Prop :=
  l.Chain' (fun a b => b.score ≤ a.score)

instance (l : List RResult) : Decidable (scoresSortedDesc l) :=
  inferInstanceAs (Decidable (List.Chain' (fun a b : RResult => b.score ≤ a.score) l))

/-- The tagged result list contributed by one collection: the tagged
Port results on success, nothing on a raised retrieval error (the
`except ... continue` branch). -/
def fetchTagged (port : String → Option QFilter → Except String (List RResult))
    (idcc : Option String) (collection : String) : List RResult :=
  match port collection (mkKaliFilter collection idcc) with
  | .ok results => results.map (tagResult collection idcc)
  | .error _ => []

/-! Concrete inputs used by the witness and counterexample theorems -/

/-- Sample passage with a given content and score; the metadata fields
and the Merger tags start absent, as on a raw Port result. -/
def mkRes (content : String) (s : Int) : RResult :=
  { content := content, articleNum := none, conventionName := none, metaIdcc := none,
    score := s, collectionTag := none, conventionTag := none }

/-- Score lists of the merge+sort example of the spec: the general
collection returns scores `[90, 70]`, the convention collection
`[50]`. -/
def c1Lists (collection : String) (_ : Option QFilter) : List RResult :=
  if collection = "code_travail" then [mkRes "a1" 90, mkRes "a2" 70] else [mkRes "b1" 50]

/-- Four passages, for exercising citation sanitization with more
passages than the three shown to the generation service. -/
def c2Results : List RResult := [mkRes "p0" 9, mkRes "p1" 8, mkRes "p2" 7, mkRes "p3" 6]

/-- Service response citing indices 0, 5, 10 and 3. -/
def c2Svc : String → Except String RawAnswer :=
  fun _ => Except.ok { answer := "a", confidence := none,
                       citationIndices := some [0, 5, 10, 3], reasoning := "r" }

/-- Three passages, matching the citation-sanitization example of the
spec. -/
def c2wResults : List RResult := [mkRes "p0" 9, mkRes "p1" 8, mkRes "p2" 7]

/-- Raw service answer citing indices 0, 5 and 10. -/
def c2wRaw : RawAnswer :=
  { answer := "a", confidence := none, citationIndices := some [0, 5, 10], reasoning := "r" }

/-- Service returning `c2wRaw`. -/
def c2wSvc : String → Except String RawAnswer := fun _ => Except.ok c2wRaw

/-- The validated answer corresponding to `c2wSvc`: confidence defaults
to 0.7, the citation indices pass through unvalidated. -/
def c2wAns : AnswerWithCitations :=
  { answer := "a", confidence := 7 / 10, citationIndices := [0, 5, 10], reasoning := "r" }

/-- Decision whose `idcc` is non-null but empty — the input separating
Python truthiness from a non-null test. -/
def c4Decision : RoutingDecision :=
  { strategy := "kali_only", idcc := some "", reasoning := "r" }

/-- Port returning two sorted convention passages and raising on the
general collection. -/
def c6Port : String → Option QFilter → Except String (List RResult) :=
  fun collection _ =>
    if collection = "kali" then Except.ok [mkRes "k1" 90, mkRes "k2" 70]
    else Except.error "connection refused"

/-- Four passages for the context-cap witness. -/
def c7Results : List RResult := [mkRes "a" 9, mkRes "b" 8, mkRes "c" 7, mkRes "d" 6]

/-- Sorted Port output with a score tie between the first two passages. -/
def c9List : List RResult := [mkRes "first" 5, mkRes "second" 5, mkRes "third" 3]

/-- Port returning `c9List` for the convention collection. -/
def c9Port : String → Option QFilter → Except String (List RResult) :=
  fun collection _ =>
    if collection = "kali" then Except.ok c9List else Except.error "unreachable"

/-- Raw service answer with both optional fields missing. -/
def c10RawDef : RawAnswer :=
  { answer := "a", confidence := none, citationIndices := none, reasoning := "r" }

/-- Service returning `c10RawDef`. -/
def c10SvcDef : String → Except String RawAnswer := fun _ => Except.ok c10RawDef

/-- Raw service answer with a confidence of 2, outside `[0,1]`. -/
def c10RawOOR : RawAnswer :=
  { answer := "a", confidence := some 2, citationIndices := some [0], reasoning := "r" }

/-- Service returning `c10RawOOR`. -/
def c10SvcOOR : String → Except String RawAnswer := fun _ => Except.ok c10RawOOR

/-- Tagging a passage never changes its score. -/
theorem tagResult_score (collection : String) (idcc : Option String) (r : RResult) :
    (tagResult collection idcc r).score = r.score := by
  unfold tagResult
  split <;> rfl

/-- Tagging a whole list preserves descending sortedness of scores. -/
theorem scoresSortedDesc_map_tag (collection : String) (idcc : Option String)
    {A : List RResult} (h : scoresSortedDesc A) :
    scoresSortedDesc (A.map (tagResult collection idcc)) := by
  unfold scoresSortedDesc at h ⊢
  rw [List.chain'_map]
  simpa [tagResult_score] using h

/-- Stable insertion into a descending list yields the cons when the
inserted element dominates the head; on an already-sorted list whose
head dominates the inserted element, nothing needs restating here — the
identity lemma below covers the sorted case. -/
theorem sortByScoreDesc_of_sorted : ∀ l : List RResult, scoresSortedDesc l → sortByScoreDesc l = l
  | [] => fun _ => rfl
  | [_] => fun _ => rfl
  | x :: y :: ys => fun h => by
      rw [scoresSortedDesc, List.chain'_cons] at h
      have ih := sortByScoreDesc_of_sorted (y :: ys) h.2
      show insertDesc x (sortByScoreDesc (y :: ys)) = x :: y :: ys
      rw [ih]
      show (if y.score ≤ x.score then x :: y :: ys else y :: insertDesc x ys) = x :: y :: ys
      rw [if_pos h.1]

/-- Stable insertion produces a permutation of the cons. -/
theorem insertDesc_perm (x : RResult) :
    ∀ l : List RResult, List.Perm (insertDesc x l) (x :: l)
  | [] => List.Perm.refl _
  | y :: ys => by
      unfold insertDesc
      split
      · exact List.Perm.refl _
      · exact ((insertDesc_perm x ys).cons y).trans (List.Perm.swap x y ys)

/-- The merge sort step is a permutation: no passage is lost or
duplicated by the `sort` call. -/
theorem sortByScoreDesc_perm : ∀ l : List RResult, List.Perm (sortByScoreDesc l) l
  | [] => List.Perm.refl _
  | x :: xs =>
      (insertDesc_perm x (sortByScoreDesc xs)).trans ((sortByScoreDesc_perm xs).cons x)

/-- Stable insertion preserves descending sortedness. -/
theorem scoresSortedDesc_insertDesc (x : RResult) :
    ∀ l : List RResult, scoresSortedDesc l → scoresSortedDesc (insertDesc x l) := by
  intro l
  induction l with
  | nil => intro _; simp [insertDesc, scoresSortedDesc]
  | cons y ys ih =>
    intro h
    have htail : scoresSortedDesc ys := List.Chain'.tail h
    unfold insertDesc
    split
    · rename_i hy
      unfold scoresSortedDesc
      rw [List.chain'_cons]
      exact ⟨hy, h⟩
    · rename_i hy
      have hx : x.score ≤ y.score := le_of_not_le hy
      have hins := ih htail
      cases ys with
      | nil => simp [insertDesc, scoresSortedDesc, hx]
      | cons z zs =>
        unfold scoresSortedDesc at h
        rw [List.chain'_cons] at h
        show scoresSortedDesc (y :: insertDesc x (z :: zs))
        unfold insertDesc
        split
        · rename_i hz
          unfold scoresSortedDesc
          rw [List.chain'_cons]
          refine ⟨hx, ?_⟩
          rw [List.chain'_cons]
          exact ⟨hz, h.2⟩
        · rename_i hz
          unfold scoresSortedDesc
          rw [List.chain'_cons]
          refine ⟨h.1, ?_⟩
          unfold scoresSortedDesc at hins
          simpa [insertDesc, hz] using hins

/-- The output of the merge sort step is sorted by score descending. -/
theorem sortByScoreDesc_sorted : ∀ l : List RResult, scoresSortedDesc (sortByScoreDesc l)
  | [] => by simp [sortByScoreDesc, scoresSortedDesc]
  | x :: xs => scoresSortedDesc_insertDesc x _ (sortByScoreDesc_sorted xs)

/-- The retrieval loop of `retrieve_with_routing` accumulates exactly
the concatenation of the per-collection tagged contributions. -/
theorem mergeFold_eq (port : String → Option QFilter → Except String (List RResult))
    (idcc : Option String) :
    ∀ (cols : List String) (acc : List RResult),
      cols.foldl (fun acc collection =>
          match port collection (mkKaliFilter collection idcc) with
          | .ok results => acc ++ results.map (tagResult collection idcc)
          | .error _ => acc) acc
        = acc ++ (cols.map (fetchTagged port idcc)).flatten
  | [], acc => by simp
  | c :: cs, acc => by
      rw [List.foldl_cons, mergeFold_eq port idcc cs]
      have hstep : (match port c (mkKaliFilter c idcc) with
          | .ok results => acc ++ results.map (tagResult c idcc)
          | .error _ => acc) = acc ++ fetchTagged port idcc c := by
        unfold fetchTagged
        cases port c (mkKaliFilter c idcc) <;> simp
      rw [hstep]
      simp [List.append_assoc]

/-- Closed form of the Merger: sort the concatenation of all
per-collection tagged contributions by score descending, then truncate
to `topK`. -/
theorem retrieveWithRouting_eq (decision : RoutingDecision) (topK : Nat)
    (port : String → Option QFilter → Except String (List RResult)) :
    retrieveWithRouting decision topK port
      = (sortByScoreDesc ((decision.collections.map (fetchTagged port decision.idcc)).flatten)).take topK := by
  unfold retrieveWithRouting
  rw [mergeFold_eq]
  rfl

/-! Claim theorems -/

/-- C3: for every `RoutingDecision`, the derived collections list is
fixed per strategy — `code_only → [code_travail]` (the general
collection), `kali_only → [kali]` (the convention collection),
`both_code_first → [code_travail, kali]`, `both_kali_first →
[kali, code_travail]` — and any unrecognized strategy string degrades to
`[code_travail]`, so `collections` is never empty and its computation is
a total function (never errors). -/
theorem collections_spec (d : RoutingDecision) :
    d.collections ≠ [] ∧
    (d.strategy = "code_only" → d.collections = ["code_travail"]) ∧
    (d.strategy = "kali_only" → d.collections = ["kali"]) ∧
    (d.strategy = "both_code_first" → d.collections = ["code_travail", "kali"]) ∧
    (d.strategy = "both_kali_first" → d.collections = ["kali", "code_travail"]) ∧
    (d.strategy ≠ "code_only" ∧ d.strategy ≠ "kali_only" ∧
      d.strategy ≠ "both_code_first" ∧ d.strategy ≠ "both_kali_first" →
      d.collections = ["code_travail"]) := by
  unfold RoutingDecision.collections
  split_ifs with h1 h2 h3 h4 <;> simp_all

/-- C3 witness: the mapping evaluated at an unrecognized strategy and at
`both_kali_first`. -/
theorem collections_spec_witness :
    (RoutingDecision.mk "mystery" none "r").collections = ["code_travail"] ∧
    (RoutingDecision.mk "both_kali_first" none "r").collections = ["kali", "code_travail"] :=
  ⟨(collections_spec (RoutingDecision.mk "mystery" none "r")).2.2.2.2.2 (by decide),
   (collections_spec (RoutingDecision.mk "both_kali_first" none "r")).2.2.2.2.1 rfl⟩

/-- C5: whenever the external classification call fails (the `Except` is
an error, covering timeouts, malformed responses and schema violations
alike), the Router returns the fixed fallback decision — strategy
`code_only`, null `idcc`, the diagnostic reasoning string
`"Fallback: LLM error"`.  `route` is a total Lean function, so no
failure propagates past it. -/
theorem route_error_fallback (e : String) :
    route (Except.error e) = routeFallback ∧
    (route (Except.error e)).strategy = "code_only" ∧
    (route (Except.error e)).idcc = none ∧
    (route (Except.error e)).reasoning = "Fallback: LLM error" :=
  ⟨rfl, rfl, rfl, rfl⟩

/-- C8: on an empty passage list, `generate` returns the fixed
no-information answer with confidence 0 and empty citations, and the
returned value does not depend on the external generation service at
all (the service is never consulted); `generate` is a total Lean
function, so this path never raises. -/
theorem generate_empty_no_service (query : String)
    (svc svc2 : String → Except String RawAnswer) :
    generate query [] svc = noResultsAnswer ∧
    (generate query [] svc).answer
      = "Aucune information disponible pour répondre à cette question." ∧
    (generate query [] svc).confidence = 0 ∧
    (generate query [] svc).citationIndices = [] ∧
    generate query [] svc = generate query [] svc2 :=
  ⟨rfl, rfl, rfl, rfl, rfl⟩

/-- C7: on a non-empty passage list, the generation service is invoked
on the prompt built from `results.take 3` only — exactly the first 3
passages, or fewer when fewer are available (`min 3` of the length) —
and appending any further passages beyond the third leaves the shown
window unchanged, so a passage beyond the third is never part of the
context sent to the service. -/
theorem generate_context_cap (query : String) (results : List RResult)
    (svc : String → Except String RawAnswer) (h : results ≠ []) :
    generate query results svc
      = postProcess results.length
          ((svc (userPrompt query (buildContext (results.take 3)))).bind parseAnswer) ∧
    (results.take 3).length = min 3 results.length ∧
    (results.take 3).length ≤ 3 ∧
    (3 ≤ results.length → ∀ extra : List RResult,
      (results ++ extra).take 3 = results.take 3) := by
  have hne : ¬ results.isEmpty := by simpa [List.isEmpty_iff] using h
  refine ⟨?_, List.length_take 3 results, List.length_take_le 3 results, ?_⟩
  · unfold generate
    rw [if_neg hne]
  · intro h3 extra
    exact List.take_append_of_le_length h3

/-- C7 witness: with four passages merged, the shown window is the first
three, and growing the merged list further does not change it. -/
theorem generate_context_cap_witness :
    (c7Results.take 3).length = min 3 c7Results.length ∧
    (c7Results ++ [mkRes "e" 5]).take 3 = c7Results.take 3 := by
  have h := generate_context_cap "q" c7Results (fun _ => Except.error "x") (by decide)
  exact ⟨h.2.1, h.2.2.2 (by decide) [mkRes "e" 5]⟩

/-- C1: for every query (captured in the port), every `RoutingDecision`
and every positive `top_k`, when every per-collection retrieval call
succeeds (the port is total, returning `L c f`), the output of the
Merger equals the first `top_k` elements of the concatenation of all
per-collection (tagged) result lists sorted by score descending, and its
length is at most `top_k`.  The decision — and with it the collection
order — is universally quantified, so the characterization holds
regardless of which collection was queried first. -/
theorem retrieveWithRouting_merge_sort (d : RoutingDecision) (topK : Nat)
    (L : String → Option QFilter → List RResult) (_hpos : 0 < topK) :
    retrieveWithRouting d topK (fun c f => Except.ok (L c f))
      = (sortByScoreDesc ((d.collections.map
          (fun c => (L c (mkKaliFilter c d.idcc)).map (tagResult c d.idcc))).flatten)).take topK ∧
    (retrieveWithRouting d topK (fun c f => Except.ok (L c f))).length ≤ topK := by
  have heq := retrieveWithRouting_eq d topK (fun c f => Except.ok (L c f))
  have hfetch : fetchTagged (fun c f => Except.ok (L c f)) d.idcc
      = fun c => (L c (mkKaliFilter c d.idcc)).map (tagResult c d.idcc) := rfl
  constructor
  · rw [heq, hfetch]
  · rw [heq, List.length_take]
    exact min_le_left _ _

/-- C1 witness: the merge+sort example of the spec — scores `[90, 70]`
from one collection and `[50]` from the other, `top_k = 3` — yields
`[90, 70, 50]` for both query orders. -/
theorem retrieveWithRouting_merge_sort_witness :
    0 < 3 ∧
    (retrieveWithRouting (RoutingDecision.mk "both_code_first" none "r") 3
        (fun c f => Except.ok (c1Lists c f))).map RResult.score = [90, 70, 50] ∧
    (retrieveWithRouting (RoutingDecision.mk "both_kali_first" none "r") 3
        (fun c f => Except.ok (c1Lists c f))).map RResult.score = [90, 70, 50] := by
  have h1 := retrieveWithRouting_merge_sort
    (RoutingDecision.mk "both_code_first" none "r") 3 c1Lists (by decide)
  have h2 := retrieveWithRouting_merge_sort
    (RoutingDecision.mk "both_kali_first" none "r") 3 c1Lists (by decide)
  refine ⟨by decide, ?_, ?_⟩
  · rw [h1.1]; decide
  · rw [h2.1]; decide

/-- C6: for a two-collection decision, if the retrieval call for the
second collection raises while the first succeeds with a
descending-sorted result list (the Port contract of the spec, §6), the
Merger returns exactly the tagged results of the first collection capped
at `top_k` — the failure removes only the failing collection and,
`retrieveWithRouting` being a total Lean function, never aborts the
whole call. -/
theorem retrieveWithRouting_partial_failure (d : RoutingDecision) (topK : Nat)
    (port : String → Option QFilter → Except String (List RResult))
    (cFst cSnd : String) (A : List RResult) (e : String)
    (hcols : d.collections = [cFst, cSnd])
    (hfst : port cFst (mkKaliFilter cFst d.idcc) = Except.ok A)
    (hsnd : port cSnd (mkKaliFilter cSnd d.idcc) = Except.error e)
    (hsorted : scoresSortedDesc A) :
    retrieveWithRouting d topK port = (A.map (tagResult cFst d.idcc)).take topK := by
  rw [retrieveWithRouting_eq, hcols]
  have h1 : fetchTagged port d.idcc cFst = A.map (tagResult cFst d.idcc) := by
    unfold fetchTagged; rw [hfst]
  have h2 : fetchTagged port d.idcc cSnd = [] := by
    unfold fetchTagged; rw [hsnd]
  simp only [List.map_cons, List.map_nil, List.flatten_cons, List.flatten_nil,
    List.append_nil, h1, h2]
  rw [sortByScoreDesc_of_sorted _ (scoresSortedDesc_map_tag cFst d.idcc hsorted)]

/-- C6 witness: with `both_kali_first` and the second (general) call
raising, the output is exactly the first (convention) collection scores
`[90, 70]`. -/
theorem retrieveWithRouting_partial_failure_witness :
    (retrieveWithRouting (RoutingDecision.mk "both_kali_first" (some "1486") "r") 5
        c6Port).map RResult.score = [90, 70] := by
  have h := retrieveWithRouting_partial_failure
    (RoutingDecision.mk "both_kali_first" (some "1486") "r") 5 c6Port
    "kali" "code_travail" [mkRes "k1" 90, mkRes "k2" 70] "connection refused"
    (by decide) rfl rfl
    (by simp [scoresSortedDesc, List.chain'_cons, mkRes])
  rw [h]; decide

/-- C9: for a single-collection decision whose Port results are already
sorted by descending score (ties between equal scores allowed), the sort
step of the Merger is the identity on them: the output is the tagged
Port list truncated to `top_k`, in Port order — the stable sort never
reorders ties. -/
theorem retrieveWithRouting_single_sorted (d : RoutingDecision) (topK : Nat)
    (port : String → Option QFilter → Except String (List RResult))
    (c : String) (A : List RResult)
    (hcols : d.collections = [c])
    (hport : port c (mkKaliFilter c d.idcc) = Except.ok A)
    (hsorted : scoresSortedDesc A) :
    retrieveWithRouting d topK port = (A.map (tagResult c d.idcc)).take topK := by
  rw [retrieveWithRouting_eq, hcols]
  have h1 : fetchTagged port d.idcc c = A.map (tagResult c d.idcc) := by
    unfold fetchTagged; rw [hport]
  simp only [List.map_cons, List.map_nil, List.flatten_cons, List.flatten_nil,
    List.append_nil, h1]
  rw [sortByScoreDesc_of_sorted _ (scoresSortedDesc_map_tag c d.idcc hsorted)]

/-- C9 witness: a sorted convention-only result list with a score tie
between its first two passages keeps Port order after the merge step,
truncated to `top_k = 2`. -/
theorem retrieveWithRouting_single_sorted_witness :
    (retrieveWithRouting (RoutingDecision.mk "kali_only" (some "1486") "r") 2
        c9Port).map RResult.content = ["first", "second"] := by
  have h := retrieveWithRouting_single_sorted
    (RoutingDecision.mk "kali_only" (some "1486") "r") 2 c9Port "kali" c9List
    (by decide) rfl
    (by simp [scoresSortedDesc, c9List, List.chain'_cons, mkRes])
  rw [h]; decide

/-- C2 counterexample: with four passages (so three shown) and the
service citing index 3, the sanitized citation list is `[0, 3]` — the
code keeps index 3 because it validates against the *full* passage list
length (4), while the claimed bound `idx < min(3, length) = 3` rejects
it; the claim as stated is false at this input. -/
theorem generate_citation_shown_bound_cex :
    (generate "q" c2Results c2Svc).citationIndices = [0, 3] ∧
    ¬ ((3 : Int) < ((min 3 c2Results.length : Nat) : Int)) := by
  constructor
  · simp [generate, c2Results, c2Svc, postProcess, parseAnswer, Except.bind, mkRes]
    norm_num
  · decide

/-- C2 (amended): every citation index in the returned answer satisfies
`0 ≤ idx < results.length`, the length of the *full* passage list handed
to the synthesizer (not the number of passages shown to the service);
out-of-range indices are silently dropped by a filter, never an error.
The spec instance still holds: with a 3-passage list, `[0, 5, 10]`
sanitizes to `[0]` (see the witness). -/
theorem generate_citation_bound (query : String) (results : List RResult)
    (svc : String → Except String RawAnswer) (raw : RawAnswer) (ans : AnswerWithCitations)
    (hres : results ≠ [])
    (hsvc : svc (userPrompt query (buildContext (results.take 3))) = Except.ok raw)
    (hparse : parseAnswer raw = Except.ok ans) :
    (generate query results svc).citationIndices
      = ans.citationIndices.filter (fun idx => 0 ≤ idx ∧ idx < (results.length : Int)) ∧
    ∀ idx ∈ (generate query results svc).citationIndices,
      0 ≤ idx ∧ idx < (results.length : Int) := by
  have hne : ¬ results.isEmpty := by simpa [List.isEmpty_iff] using hres
  have hg : generate query results svc = postProcess results.length (Except.ok ans) := by
    unfold generate
    rw [if_neg hne, hsvc]
    simp [Except.bind, hparse]
  have hpp : (postProcess results.length (Except.ok ans)).citationIndices
      = ans.citationIndices.filter (fun idx => 0 ≤ idx ∧ idx < (results.length : Int)) := rfl
  constructor
  · rw [hg, hpp]
  · intro idx hidx
    rw [hg, hpp, List.mem_filter] at hidx
    exact of_decide_eq_true hidx.2

/-- C2 witness: the sanitization example of the spec — three passages,
service citations `[0, 5, 10]` — yields `[0]`. -/
theorem generate_citation_bound_witness :
    (generate "q" c2wResults c2wSvc).citationIndices = [0] := by
  have hparse : parseAnswer c2wRaw = Except.ok c2wAns := by
    simp [parseAnswer, c2wRaw, c2wAns]
    norm_num
  have h := generate_citation_bound "q" c2wResults c2wSvc
    c2wRaw c2wAns (by decide) rfl hparse
  rw [h.1]
  decide

/-- C4 counterexample: `c4Decision` routes to the convention collection
with a non-null `idcc` (`some ""`), yet the Merger constructs no filter
for it, because the code tests Python truthiness and the empty string is
falsy — the claimed "iff non-null" is false at this input. -/
theorem mkKaliFilter_nonnull_cex :
    c4Decision.idcc.isSome = true ∧
    c4Decision.collections = ["kali"] ∧
    mkKaliFilter "kali" c4Decision.idcc = none := by decide

/-- C4 (amended): the Merger constructs a metadata-equality filter for a
retrieval call iff the queried collection is the convention collection
(`"kali"`) and `idcc` is non-null *and non-empty* (Python truthiness);
the filter value then equals `idcc` exactly, and with null `idcc` no
filter is ever constructed for any collection. -/
theorem mkKaliFilter_spec (d : RoutingDecision) (collection : String) :
    ((mkKaliFilter collection d.idcc).isSome
      ↔ collection = "kali" ∧ ∃ s, d.idcc = some s ∧ s ≠ "") ∧
    (∀ s, collection = "kali" → d.idcc = some s → s ≠ "" →
      mkKaliFilter collection d.idcc = some { key := "meta.idcc", value := s }) ∧
    (d.idcc = none → mkKaliFilter collection d.idcc = none) := by
  unfold mkKaliFilter truthyStr
  cases hidcc : d.idcc with
  | none => simp
  | some s =>
      by_cases hs : s = "" <;> by_cases hc : collection = "kali" <;>
        simp [hs, hc, Option.getD]

/-- C4 witness: filtered convention calls for four distinct convention
identifiers carry exactly that identifier as the filter value, and a
null `idcc` builds no filter even on the convention collection. -/
theorem mkKaliFilter_spec_witness :
    mkKaliFilter "kali" (some "1486") = some { key := "meta.idcc", value := "1486" } ∧
    mkKaliFilter "kali" (some "3248") = some { key := "meta.idcc", value := "3248" } ∧
    mkKaliFilter "kali" (some "1979") = some { key := "meta.idcc", value := "1979" } ∧
    mkKaliFilter "kali" (some "1597") = some { key := "meta.idcc", value := "1597" } ∧
    mkKaliFilter "kali" (none : Option String) = none :=
  ⟨(mkKaliFilter_spec (RoutingDecision.mk "kali_only" (some "1486") "r") "kali").2.1
      "1486" rfl rfl (by decide),
   (mkKaliFilter_spec (RoutingDecision.mk "kali_only" (some "3248") "r") "kali").2.1
      "3248" rfl rfl (by decide),
   (mkKaliFilter_spec (RoutingDecision.mk "kali_only" (some "1979") "r") "kali").2.1
      "1979" rfl rfl (by decide),
   (mkKaliFilter_spec (RoutingDecision.mk "kali_only" (some "1597") "r") "kali").2.1
      "1597" rfl rfl (by decide),
   (mkKaliFilter_spec (RoutingDecision.mk "kali_only" none "r") "kali").2.2 rfl⟩

/-- C10: for a structured service response that parses, a missing
`confidence` field is filled with the schema default 0.7 and a missing
`citation_indices` field with `[]` (a missing optional field is not a
generation failure), while a present confidence outside `[0,1]` fails
validation and sends `generate` down the exception-fallback path. -/
theorem generate_schema_defaults (query : String) (results : List RResult)
    (svc : String → Except String RawAnswer) (raw : RawAnswer)
    (hres : results ≠ [])
    (hsvc : svc (userPrompt query (buildContext (results.take 3))) = Except.ok raw) :
    (raw.confidence = none → (generate query results svc).confidence = 7 / 10) ∧
    (raw.citationIndices = none → (generate query results svc).citationIndices = []) ∧
    (∀ conf : Rat, raw.confidence = some conf → ¬ (0 ≤ conf ∧ conf ≤ 1) →
      generate query results svc = fallbackAnswer "confidence out of range") := by
  have hne : ¬ results.isEmpty := by simpa [List.isEmpty_iff] using hres
  have hg : generate query results svc = postProcess results.length (parseAnswer raw) := by
    unfold generate
    rw [if_neg hne, hsvc]
    rfl
  refine ⟨?_, ?_, ?_⟩
  · intro hconf
    rw [hg]
    simp only [parseAnswer, hconf, Option.getD_none]
    rw [if_pos (by norm_num)]
    rfl
  · intro hcit
    rw [hg]
    simp only [parseAnswer, hcit]
    by_cases hc : 0 ≤ raw.confidence.getD (7 / 10 : Rat) ∧ raw.confidence.getD (7 / 10 : Rat) ≤ 1
    · rw [if_pos hc]
      simp [postProcess]
    · rw [if_neg hc]
      rfl
  · intro conf hconf hbound
    rw [hg]
    simp only [parseAnswer, hconf, Option.getD_some]
    rw [if_neg hbound]
    rfl

/-- C10 witness: both optional fields missing yields confidence 0.7 and
no citations; a confidence of 2 yields the fixed fallback answer. -/
theorem generate_schema_defaults_witness :
    (generate "q" [mkRes "p" 1] c10SvcDef).confidence = 7 / 10 ∧
    (generate "q" [mkRes "p" 1] c10SvcDef).citationIndices = [] ∧
    generate "q" [mkRes "p" 1] c10SvcOOR = fallbackAnswer "confidence out of range" :=
  ⟨(generate_schema_defaults "q" [mkRes "p" 1] c10SvcDef c10RawDef (by decide) rfl).1 rfl,
   (generate_schema_defaults "q" [mkRes "p" 1] c10SvcDef c10RawDef (by decide) rfl).2.1 rfl,
   (generate_schema_defaults "q" [mkRes "p" 1] c10SvcOOR c10RawOOR (by decide) rfl).2.2
      2 rfl (by norm_num)⟩

end AdminRag
